import Mathlib

/-!
# Verification of the InvenTree ROP (Reorder Point) Suggestion Engine

Shallow embedding of the core calculation logic of the `inventree_rop_engine`
plugin (files `rop_engine.py` and `models.py`), together with proofs of the
specification's claims about it.

Quantities (stock counts, demand rates, safety stock) are modelled as
rationals (`ℚ`), day counts as integers/naturals.  The one numeric primitive
the code uses that has no exact rational counterpart, `math.sqrt`, is passed
in as an explicit parameter `sqrtQ : ℚ → ℚ`; every property proved here holds
for an arbitrary such function, mirroring the fact that the claims under
study do not depend on the value of the square root.
-/

namespace ROPEngine

/-- Status of an `ROPSuggestion` row (`models.py`, `STATUS_CHOICES`). -/
inductive SuggestionStatus
  | PENDING
  | PO_CREATED
  | DISMISSED
  | EXPIRED
deriving DecidableEq, Repr

/-- Status of an InvenTree `PurchaseOrder` as used by the engine:
`PENDING` (10, draft), `PLACED` (20, issued), `COMPLETE` (30),
`CANCELLED` (40). -/
inductive POStatus
  | PENDING
  | PLACED
  | COMPLETE
  | CANCELLED
deriving DecidableEq, Repr

/-- A purchase-order line item, with its order's status denormalised onto the
line (the Python code filters lines by `order__status`).  A database `NULL`
in `received` reads as 0 in `get_inbound_po_quantity` (`line.received or 0`),
so `received` is modelled directly as a quantity. -/
structure POLine where
  part : Nat
  quantity : ℚ
  received : ℚ
  orderStatus : POStatus
deriving DecidableEq, Repr

/-- `ROPPolicy` model fields used by the engine (`models.py`). -/
structure ROPPolicy where
  partId : Nat
  safety_stock : ℚ
  use_calculated_safety_stock : Bool
  service_level : ℚ
  custom_lookback_days : Option Nat
  target_stock_multiplier : ℚ
  last_calculated_rop : Option ℚ
  last_calculated_demand_rate : Option ℚ
  enabled : Bool
deriving DecidableEq, Repr

/-- Result record of `calculate_demand_rate`. -/
structure DemandData where
  mean_daily_demand : ℚ
  std_dev_daily_demand : ℚ
  removal_count : Nat
  analysis_period_days : Nat
  total_removed : ℚ
deriving DecidableEq, Repr

/-- `ROPPolicy.get_effective_lookback_days`: a set (non-zero)
`custom_lookback_days` overrides the global setting (`if
self.custom_lookback_days:` is a Python truthiness test, so a stored 0 also
falls back to the global value). -/
def get_effective_lookback_days (policy : ROPPolicy) (globalLookback : Nat) : Nat :=
  match policy.custom_lookback_days with
  | some c => if c ≠ 0 then c else globalLookback
  | none => globalLookback

/-- `ROPCalculationEngine.calculate_demand_rate` (rop_engine.py, lines
180-249).  `removals` are the raw tracked quantities in the lookback window;
the code keeps `abs(float(q)) for q in removals if q`, i.e. drops zero
entries and takes absolute values.  Returns `none` ("insufficient data") when
fewer than `min_samples` events remain. -/
def calculate_demand_rate (sqrtQ : ℚ → ℚ) (removals : List ℚ)
    (lookback_days : Nat) (min_samples : Nat) : Option DemandData :=
  let removal_list := (removals.filter (fun q => q ≠ 0)).map (fun q => |q|)
  if removal_list.length < min_samples then none
  else
    let total_removed := removal_list.sum
    let mean_daily := total_removed / (lookback_days : ℚ)
    let std_dev_daily :=
      if removal_list.length > 1 then
        let mean := total_removed / (removal_list.length : ℚ)
        let variance :=
          ((removal_list.map (fun x => (x - mean) ^ 2)).sum) / (removal_list.length : ℚ)
        let std_dev_per_transaction := sqrtQ variance
        let transactions_per_day := (removal_list.length : ℚ) / (lookback_days : ℚ)
        std_dev_per_transaction * sqrtQ transactions_per_day
      else 0
    some ⟨mean_daily, std_dev_daily, removal_list.length, lookback_days, total_removed⟩

/-- `ROPCalculationEngine.service_level_to_z_score` (rop_engine.py, lines
290-316): fixed dictionary lookup with default 1.645 (the 95% value). -/
def service_level_to_z_score (service_level_pct : ℚ) : ℚ :=
  if service_level_pct = 50 then 0
  else if service_level_pct = 75 then 0.674
  else if service_level_pct = 80 then 0.842
  else if service_level_pct = 85 then 1.036
  else if service_level_pct = 90 then 1.282
  else if service_level_pct = 95 then 1.645
  else if service_level_pct = 97 then 1.881
  else if service_level_pct = 98 then 2.054
  else if service_level_pct = 99 then 2.326
  else if service_level_pct = 99.5 then 2.576
  else if service_level_pct = 99.9 then 3.090
  else 1.645

/-- `ROPCalculationEngine.calculate_safety_stock` (rop_engine.py, lines
251-288).  `lead_time` is the value `get_lead_time` returned (`none` when no
supplier data is available; the code then falls back to 30 days). -/
def calculate_safety_stock (sqrtQ : ℚ → ℚ) (policy : ROPPolicy)
    (demand_data : DemandData) (lead_time : Option Nat) : ℚ :=
  if !policy.use_calculated_safety_stock then policy.safety_stock
  else
    let z_score := service_level_to_z_score policy.service_level
    let lt := lead_time.getD 30
    let std_dev_lead_time := demand_data.std_dev_daily_demand * sqrtQ (lt : ℚ)
    max 0 (z_score * std_dev_lead_time)

/-- `ROPCalculationEngine.get_inbound_po_quantity` (rop_engine.py, lines
374-409): sum of `quantity - received` over this part's lines on orders with
status `PLACED` or `COMPLETE`, excluding fully received lines
(`received ≥ quantity`). -/
def get_inbound_po_quantity (partId : Nat) (lines : List POLine) : ℚ :=
  ((lines.filter (fun ln =>
      ln.part = partId ∧
      (ln.orderStatus = POStatus.PLACED ∨ ln.orderStatus = POStatus.COMPLETE) ∧
      ¬ (ln.received ≥ ln.quantity))).map
    (fun ln => ln.quantity - ln.received)).sum

/-- `ROPCalculationEngine.calculate_projected_stock` (rop_engine.py, lines
348-372): `projected = current + inbound − committed`. -/
def calculate_projected_stock (partId : Nat) (current_stock committed_qty : ℚ)
    (lines : List POLine) : ℚ :=
  current_stock + get_inbound_po_quantity partId lines - committed_qty

/-- Result of stockout estimation: absolute day number of the projected
stockout date and the day count until it, both optional. -/
structure StockoutInfo where
  date : Option ℤ
  days : Option ℤ
deriving DecidableEq, Repr

/-- Truncation toward zero, the behaviour of Python's `int()` on a
non-integral number. -/
def intTrunc (q : ℚ) : ℤ := if 0 ≤ q then ⌊q⌋ else ⌈q⌉

/-- `ROPCalculationEngine.estimate_stockout_simple` (rop_engine.py, lines
453-492).  `lastRate` is the policy's cached `last_calculated_demand_rate`
(`none` for a database NULL); `today` is today's date as a day number.  The
code first tests Python truthiness (`if not rate`, catching NULL and 0),
then `rate <= 0`. -/
def estimate_stockout_simple (lastRate : Option ℚ) (current_stock rop : ℚ)
    (today : ℤ) : StockoutInfo :=
  match lastRate with
  | none => ⟨none, none⟩
  | some rate =>
    if rate = 0 then ⟨none, none⟩
    else if rate ≤ 0 then ⟨none, none⟩
    else
      let days_until := intTrunc ((current_stock - rop) / rate)
      let days := if days_until < 0 then 0 else days_until
      ⟨some (today + days), some days⟩

/-! ## Spec reference definitions (written from the specification's words,
for the refinement claims) -/

/-- Modelled from the spec (§4.2): "If `use_calculated_safety_stock` is
false, return the manual safety_stock unchanged. Otherwise:
`z = ServiceLevelToZ(service_level)`, `sigma_LT = std_dev_daily_demand *
sqrt(lead_time_days)`, `safety_stock = max(0, z * sigma_LT)`"; lead time
defaults to 30 when unavailable (§4.6 step 3). -/
def spec_safety_stock (sqrtQ : ℚ → ℚ) (policy : ROPPolicy)
    (demand_data : DemandData) (lead_time : Option Nat) : ℚ :=
  if policy.use_calculated_safety_stock = false then policy.safety_stock
  else
    let z := service_level_to_z_score policy.service_level
    let sigmaLT := demand_data.std_dev_daily_demand * sqrtQ ((lead_time.getD 30 : Nat) : ℚ)
    max 0 (z * sigmaLT)

/-- Modelled from the spec (§4.3): inbound sums `quantity − received` over
every open order line with `received < quantity` whose order is in an issued
(placed or in-progress) state. -/
def spec_inbound_quantity (partId : Nat) (lines : List POLine) : ℚ :=
  ((lines.filter (fun ln =>
      ln.part = partId ∧
      (ln.orderStatus = POStatus.PLACED ∨ ln.orderStatus = POStatus.COMPLETE) ∧
      ln.received < ln.quantity)).map
    (fun ln => ln.quantity - ln.received)).sum

/-! ## Claims C5, C6, C7 -/

/-- C5: `calculate_safety_stock` equals the spec's reference definition; with
`use_calculated_safety_stock` false the result is the manual `safety_stock`,
independent of the demand statistics; `Z(95) = 1.645`; and every service
level not present in the lookup table maps to 1.645. -/
theorem C5_safety_stock_refinement :
    (∀ (sqrtQ : ℚ → ℚ) (policy : ROPPolicy) (demand_data : DemandData)
        (lead_time : Option Nat),
      calculate_safety_stock sqrtQ policy demand_data lead_time =
        spec_safety_stock sqrtQ policy demand_data lead_time) ∧
    (∀ (sqrtQ : ℚ → ℚ) (policy : ROPPolicy) (d1 d2 : DemandData)
        (l1 l2 : Option Nat),
      policy.use_calculated_safety_stock = false →
      calculate_safety_stock sqrtQ policy d1 l1 = policy.safety_stock ∧
      calculate_safety_stock sqrtQ policy d1 l1 = calculate_safety_stock sqrtQ policy d2 l2) ∧
    service_level_to_z_score 95 = 1.645 ∧
    (∀ sl : ℚ, sl ∉ ([50, 75, 80, 85, 90, 95, 97, 98, 99, 99.5, 99.9] : List ℚ) →
      service_level_to_z_score sl = 1.645) := by
  refine ⟨?_, ?_, ?_, ?_⟩
  · intro sqrtQ policy demand_data lead_time
    simp [calculate_safety_stock, spec_safety_stock]
  · intro sqrtQ policy d1 d2 l1 l2 h
    simp [calculate_safety_stock, h]
  · norm_num [service_level_to_z_score]
  · intro sl hsl
    simp only [List.mem_cons, List.not_mem_nil, or_false] at hsl
    push_neg at hsl
    obtain ⟨h1, h2, h3, h4, h5, h6, h7, h8, h9, h10, h11⟩ := hsl
    simp [service_level_to_z_score, h1, h2, h3, h4, h5, h6, h7, h8, h9, h10, h11]

/-- Witness for C5: the unlisted service level 93 falls back to 1.645. -/
theorem C5_safety_stock_refinement_witness :
    service_level_to_z_score 93 = 1.645 :=
  C5_safety_stock_refinement.2.2.2 93 (by norm_num)

/-- A line whose order is still in the draft (`PENDING`) state is filtered
out of the inbound quantity. -/
theorem inbound_cons_of_draft (partId : Nat) (ln : POLine) (lines : List POLine)
    (h : ln.orderStatus = POStatus.PENDING) :
    get_inbound_po_quantity partId (ln :: lines) =
      get_inbound_po_quantity partId lines := by
  unfold get_inbound_po_quantity
  rw [List.filter_cons_of_neg]
  simp [h]

/-- C6: projected stock equals current + inbound − committed where inbound is
the spec's sum over issued, not-fully-received lines; lines on draft
(`PENDING`) orders contribute nothing. -/
theorem C6_projected_stock :
    (∀ (partId : Nat) (current committed : ℚ) (lines : List POLine),
      calculate_projected_stock partId current committed lines =
        current + spec_inbound_quantity partId lines - committed) ∧
    (∀ (partId : Nat) (ln : POLine) (lines : List POLine),
      ln.orderStatus = POStatus.PENDING →
      get_inbound_po_quantity partId (ln :: lines) =
        get_inbound_po_quantity partId lines) := by
  constructor
  · intro partId current committed lines
    have h : get_inbound_po_quantity partId lines = spec_inbound_quantity partId lines := by
      unfold get_inbound_po_quantity spec_inbound_quantity
      congr 2
      apply List.filter_congr
      intro ln _
      simp [not_le]
    rw [calculate_projected_stock, h]
  · exact fun partId ln lines h => inbound_cons_of_draft partId ln lines h

/-- Witness for C6: a concrete draft-order line contributes nothing to the
inbound quantity. -/
theorem C6_projected_stock_witness :
    get_inbound_po_quantity 1 (⟨1, 10, 0, POStatus.PENDING⟩ :: []) =
      get_inbound_po_quantity 1 [] :=
  C6_projected_stock.2 1 ⟨1, 10, 0, POStatus.PENDING⟩ [] rfl

/-- On nonnegative arguments truncation agrees with the floor, and after
clamping at 0 they agree everywhere. -/
theorem max_zero_intTrunc_eq_floor (q : ℚ) : max 0 (intTrunc q) = max 0 ⌊q⌋ := by
  unfold intTrunc
  split
  · rfl
  · rename_i hq
    push_neg at hq
    have hc : ⌈q⌉ ≤ 0 := Int.ceil_le.mpr (by exact_mod_cast hq.le)
    have hf : ⌊q⌋ ≤ 0 := Int.floor_nonpos hq.le
    omega

/-- C7: the linear fallback stockout estimation returns no-stockout whenever
the cached demand rate is unknown or ≤ 0 (including exactly 0); for a
positive rate it returns `days = max 0 ⌊(current_stock − rop)/rate⌋` and the
date that many days from today. -/
theorem C7_stockout_fallback (lastRate : Option ℚ) (current_stock rop : ℚ) (today : ℤ) :
    ((lastRate = none ∨ ∃ r, lastRate = some r ∧ r ≤ 0) →
      estimate_stockout_simple lastRate current_stock rop today = ⟨none, none⟩) ∧
    (∀ r : ℚ, lastRate = some r → 0 < r →
      estimate_stockout_simple lastRate current_stock rop today =
        ⟨some (today + max 0 ⌊(current_stock - rop) / r⌋),
         some (max 0 ⌊(current_stock - rop) / r⌋)⟩) := by
  constructor
  · rintro (h | ⟨r, hr, hle⟩)
    · simp [estimate_stockout_simple, h]
    · subst hr
      rcases eq_or_lt_of_le hle with h0 | hneg
      · simp [estimate_stockout_simple, h0]
      · simp only [estimate_stockout_simple]
        rw [if_neg (by exact ne_of_lt hneg), if_pos hle]
  · intro r hr hpos
    subst hr
    simp only [estimate_stockout_simple]
    rw [if_neg (by exact ne_of_gt hpos), if_neg (by exact not_le.mpr hpos)]
    have htr := max_zero_intTrunc_eq_floor ((current_stock - rop) / r)
    have : (if intTrunc ((current_stock - rop) / r) < 0 then 0
            else intTrunc ((current_stock - rop) / r)) =
           max 0 ⌊(current_stock - rop) / r⌋ := by
      rw [← htr]
      omega
    rw [this]

/-- Witness for C7: at rate 0 the estimator returns no-stockout, and at rate
2.5 with stock 5 and rop 27.5 it returns day 0 (already below ROP). -/
theorem C7_stockout_fallback_witness :
    estimate_stockout_simple (some 0) 5 (55/2) 0 = ⟨none, none⟩ ∧
    estimate_stockout_simple (some (5/2)) 5 (55/2) 0 = ⟨some 0, some 0⟩ := by
  constructor
  · exact (C7_stockout_fallback (some 0) 5 (55/2) 0).1 (Or.inr ⟨0, rfl, le_refl 0⟩)
  · have h := (C7_stockout_fallback (some (5/2)) 5 (55/2) 0).2 (5/2) rfl (by norm_num)
    rw [h]
    rw [show ((5:ℚ) - 55/2) / (5/2) = -9 by norm_num]
    norm_num

/-! ## Urgency scoring (`models.py`, `ROPSuggestion.calculate_urgency_score`) -/

/-- Rounding to 2 decimal places (`round(total_score, 2)`). -/
def round2 (q : ℚ) : ℚ := ((round (q * 100) : ℤ) : ℚ) / 100

/-- Time sub-score (0–50 points) of `calculate_urgency_score`
(models.py, lines 337-347). -/
def time_sub_score (d : ℤ) : ℚ :=
  if d ≤ 0 then 50
  else if d ≤ 7 then 40
  else if d ≤ 14 then 30
  else if d ≤ 30 then 20
  else max 0 (20 - ((d : ℚ) - 30) / 10)

/-- Severity sub-score (0–30 points) of `calculate_urgency_score`
(models.py, lines 349-358). -/
def severity_sub_score (projected rop : ℚ) : ℚ :=
  if projected ≤ 0 then 30
  else
    let shortage_ratio := if rop = 0 then 0 else (rop - projected) / rop
    min 30 (shortage_ratio * 30)

/-- Lead-time sub-score (0–20 points) of `calculate_urgency_score`
(models.py, lines 360-369).  The guard is
`if self.lead_time_days and self.days_until_stockout:`, a Python truthiness
test; on the path where this sub-score is evaluated `days_until_stockout` is
already non-`None` and non-zero, so only the truthiness of `lead_time_days`
(non-`NULL` and non-zero) decides the branch. -/
def lead_time_sub_score (lead : Option ℤ) (d : ℤ) : ℚ :=
  match lead with
  | some l =>
    if l ≠ 0 then
      if d < l then 20
      else if (d : ℚ) < (l : ℚ) * 1.5 then 15
      else 10
    else 10
  | none => 10

/-- `ROPSuggestion.calculate_urgency_score` (models.py, lines 327-372).
The entry guard `if not self.days_until_stockout: return 100.0` fires for a
`NULL` value and for the value 0 (both falsy in Python). -/
def calculate_urgency_score (days_until_stockout : Option ℤ)
    (projected_stock calculated_rop : ℚ) (lead_time_days : Option ℤ) : ℚ :=
  match days_until_stockout with
  | none => 100
  | some d =>
    if d = 0 then 100
    else
      round2 (min 100 (time_sub_score d +
        severity_sub_score projected_stock calculated_rop +
        lead_time_sub_score lead_time_days d))

/-- Modelled from the spec (§4.5): the reference urgency score.  `none`
(unknown) days → 100; otherwise the sum of the time, severity and lead-time
sub-scores, capped at 100 and rounded to 2 decimals, where the lead-time
sub-score is 20 if `days < lead_time`, 15 if `days < 1.5·lead_time`, else
10, and 10 when the lead time is unknown.  The time and severity sub-scores
of the spec coincide textually with the code's, so those helpers are
shared. -/
def spec_urgency_score (days : Option ℤ) (projected rop : ℚ)
    (lead : Option ℤ) : ℚ :=
  match days with
  | none => 100
  | some d =>
    let lead_score : ℚ :=
      match lead with
      | some l =>
        if d < l then 20
        else if (d : ℚ) < 1.5 * (l : ℚ) then 15
        else 10
      | none => 10
    round2 (min 100 (time_sub_score d +
      severity_sub_score projected rop + lead_score))

/-- The amended reference urgency score: as `spec_urgency_score`, except that
the Python-falsy values are treated as unknown — `days_until_stockout = 0`
scores 100 (like `none`), and a lead time of 0 yields the default lead-time
sub-score 10. -/
def amended_urgency_score (days : Option ℤ) (projected rop : ℚ)
    (lead : Option ℤ) : ℚ :=
  match days with
  | none => 100
  | some d =>
    if d = 0 then 100
    else
      let lead_score : ℚ :=
        match lead with
        | some l =>
          if l = 0 then 10
          else if d < l then 20
          else if (d : ℚ) < 1.5 * (l : ℚ) then 15
          else 10
        | none => 10
      round2 (min 100 (time_sub_score d +
        severity_sub_score projected rop + lead_score))

/-! ## Claims C3, C4 -/

/-- Counterexample for C3: the code diverges from the spec's reference
definition.  At `days_until_stockout = 0` (known, not `None`) the code's
falsy test returns 100 while the reference sums 50+15+20 = 85; and at
`days = −1` with `lead_time_days = 0` the code's falsy lead-time test gives
sub-score 10 (total 75) while the reference gives 20 (total 85). -/
theorem C3_counterexample :
    calculate_urgency_score (some 0) 5 10 (some 7) = 100 ∧
    spec_urgency_score (some 0) 5 10 (some 7) = 85 ∧
    calculate_urgency_score (some (-1)) 5 10 (some 0) = 75 ∧
    spec_urgency_score (some (-1)) 5 10 (some 0) = 85 := by
  refine ⟨rfl, ?_, ?_, ?_⟩ <;>
    · simp only [spec_urgency_score, calculate_urgency_score, time_sub_score,
        severity_sub_score, lead_time_sub_score, round2]
      norm_num [round_eq]

/-- C3 (amended): the urgency score equals the reference definition amended
for Python falsiness — `days_until_stockout` of `None` **or 0** scores
exactly 100, and a lead time that is unknown **or 0** contributes the
default lead-time sub-score 10; all other branches are as the spec states
them. -/
theorem C3_urgency_refinement (days : Option ℤ) (projected rop : ℚ)
    (lead : Option ℤ) :
    calculate_urgency_score days projected rop lead =
      amended_urgency_score days projected rop lead := by
  cases days with
  | none => rfl
  | some d =>
    simp only [calculate_urgency_score, amended_urgency_score]
    by_cases hd : d = 0
    · simp [hd]
    · rw [if_neg hd, if_neg hd]
      congr 2
      cases lead with
      | none => rfl
      | some l =>
        by_cases hl : l = 0
        · simp [lead_time_sub_score, hl]
        · simp [lead_time_sub_score, hl, mul_comm]

/-- Counterexample for C4: the urgency score is not monotonic non-increasing
in `days_until_stockout` over all integers (it jumps from 85 at `days = −1`
to 100 at `days = 0`), and it is not bounded below by 0 for every input
(with `projected_stock = 100 > calculated_rop = 10` the severity sub-score
is −270 and the total is −220). -/
theorem C4_counterexample :
    calculate_urgency_score (some (-1)) 5 10 (some 7) <
      calculate_urgency_score (some 0) 5 10 (some 7) ∧
    calculate_urgency_score (some 1) 100 10 none < 0 := by
  constructor <;>
    · simp only [calculate_urgency_score, time_sub_score, severity_sub_score,
        lead_time_sub_score, round2]
      norm_num [round_eq]

/-! ### Bounds and monotonicity of the urgency score -/

theorem round2_mono {a b : ℚ} (h : a ≤ b) : round2 a ≤ round2 b := by
  unfold round2
  have hr : round (a * 100) ≤ round (b * 100) := by
    rw [round_eq, round_eq]
    exact Int.floor_mono (by linarith)
  have hc : ((round (a * 100) : ℤ) : ℚ) ≤ ((round (b * 100) : ℤ) : ℚ) := by
    exact_mod_cast hr
  linarith

theorem round2_100 : round2 100 = 100 := by
  unfold round2
  rw [show ((100 : ℚ) * 100) = ((10000 : ℕ) : ℚ) by norm_num, round_natCast]
  norm_num

theorem round2_zero : round2 0 = 0 := by
  simp [round2]

theorem time_sub_score_le_50 (d : ℤ) : time_sub_score d ≤ 50 := by
  unfold time_sub_score
  split_ifs with h1 h2 h3 h4
  · norm_num
  · norm_num
  · norm_num
  · norm_num
  · have hd : (30 : ℚ) < (d : ℚ) := by exact_mod_cast (by omega : (30 : ℤ) < d)
    apply max_le
    · norm_num
    · linarith

theorem time_sub_score_le_40 {d : ℤ} (h : 1 ≤ d) : time_sub_score d ≤ 40 := by
  unfold time_sub_score
  split_ifs with h1 h2 h3 h4
  · exact absurd h1 (by omega)
  · norm_num
  · norm_num
  · norm_num
  · have hd : (30 : ℚ) < (d : ℚ) := by exact_mod_cast (by omega : (30 : ℤ) < d)
    apply max_le
    · norm_num
    · linarith

theorem time_sub_score_le_30 {d : ℤ} (h : 8 ≤ d) : time_sub_score d ≤ 30 := by
  unfold time_sub_score
  split_ifs with h1 h2 h3 h4
  · exact absurd h1 (by omega)
  · exact absurd h2 (by omega)
  · norm_num
  · norm_num
  · have hd : (30 : ℚ) < (d : ℚ) := by exact_mod_cast (by omega : (30 : ℤ) < d)
    apply max_le
    · norm_num
    · linarith

theorem time_sub_score_le_20 {d : ℤ} (h : 15 ≤ d) : time_sub_score d ≤ 20 := by
  unfold time_sub_score
  split_ifs with h1 h2 h3 h4
  · exact absurd h1 (by omega)
  · exact absurd h2 (by omega)
  · exact absurd h3 (by omega)
  · norm_num
  · have hd : (30 : ℚ) < (d : ℚ) := by exact_mod_cast (by omega : (30 : ℤ) < d)
    apply max_le
    · norm_num
    · linarith

theorem time_sub_score_antitone {d1 d2 : ℤ} (h : d1 ≤ d2) :
    time_sub_score d2 ≤ time_sub_score d1 := by
  rcases le_or_lt d1 0 with a1 | a1
  · have e1 : time_sub_score d1 = 50 := by unfold time_sub_score; rw [if_pos a1]
    rw [e1]; exact time_sub_score_le_50 d2
  rcases le_or_lt d1 7 with a2 | a2
  · have e1 : time_sub_score d1 = 40 := by
      unfold time_sub_score; rw [if_neg (by omega), if_pos a2]
    rw [e1]; exact time_sub_score_le_40 (by omega)
  rcases le_or_lt d1 14 with a3 | a3
  · have e1 : time_sub_score d1 = 30 := by
      unfold time_sub_score; rw [if_neg (by omega), if_neg (by omega), if_pos a3]
    rw [e1]; exact time_sub_score_le_30 (by omega)
  rcases le_or_lt d1 30 with a4 | a4
  · have e1 : time_sub_score d1 = 20 := by
      unfold time_sub_score
      rw [if_neg (by omega), if_neg (by omega), if_neg (by omega), if_pos a4]
    rw [e1]; exact time_sub_score_le_20 (by omega)
  · have e1 : time_sub_score d1 = max 0 (20 - ((d1 : ℚ) - 30) / 10) := by
      unfold time_sub_score
      rw [if_neg (by omega), if_neg (by omega), if_neg (by omega), if_neg (by omega)]
    have e2 : time_sub_score d2 = max 0 (20 - ((d2 : ℚ) - 30) / 10) := by
      unfold time_sub_score
      rw [if_neg (by omega), if_neg (by omega), if_neg (by omega), if_neg (by omega)]
    rw [e1, e2]
    have hc : (d1 : ℚ) ≤ (d2 : ℚ) := by exact_mod_cast h
    exact max_le_max (le_refl 0) (by linarith)

theorem time_sub_score_nonneg (d : ℤ) : 0 ≤ time_sub_score d := by
  unfold time_sub_score
  split_ifs
  · norm_num
  · norm_num
  · norm_num
  · norm_num
  · exact le_max_left 0 _

theorem severity_sub_score_le_30 (p r : ℚ) : severity_sub_score p r ≤ 30 := by
  unfold severity_sub_score
  split_ifs <;> simp [min_le_left]

theorem severity_sub_score_nonneg {p r : ℚ} (h : p ≤ 0 ∨ p ≤ r) :
    0 ≤ severity_sub_score p r := by
  unfold severity_sub_score
  split_ifs with h1 h2
  · norm_num
  · norm_num
  · push_neg at h1
    rcases h with h | h
    · linarith
    · refine le_min (by norm_num) ?_
      have hr : 0 < r := lt_of_lt_of_le h1 h
      have : 0 ≤ (r - p) / r := div_nonneg (by linarith) hr.le
      linarith

theorem lead_time_sub_score_antitone (lead : Option ℤ) {d1 d2 : ℤ} (h : d1 ≤ d2) :
    lead_time_sub_score lead d2 ≤ lead_time_sub_score lead d1 := by
  have hc : (d1 : ℚ) ≤ (d2 : ℚ) := by exact_mod_cast h
  cases lead with
  | none => exact le_refl _
  | some l =>
    simp only [lead_time_sub_score]
    split_ifs <;> first | omega | linarith

theorem lead_time_sub_score_ge_10 (lead : Option ℤ) (d : ℤ) :
    10 ≤ lead_time_sub_score lead d := by
  cases lead with
  | none => simp [lead_time_sub_score]
  | some l =>
    simp only [lead_time_sub_score]
    split_ifs <;> norm_num

theorem urgency_le_100 (days : Option ℤ) (p r : ℚ) (lead : Option ℤ) :
    calculate_urgency_score days p r lead ≤ 100 := by
  cases days with
  | none => norm_num [calculate_urgency_score]
  | some d =>
    simp only [calculate_urgency_score]
    by_cases hd : d = 0
    · rw [if_pos hd]
    · rw [if_neg hd]
      calc round2 (min 100 (time_sub_score d + severity_sub_score p r +
            lead_time_sub_score lead d)) ≤ round2 100 :=
            round2_mono (min_le_left _ _)
        _ = 100 := round2_100

theorem urgency_nonneg (days : Option ℤ) {p r : ℚ} (lead : Option ℤ)
    (h : p ≤ 0 ∨ p ≤ r) : 0 ≤ calculate_urgency_score days p r lead := by
  cases days with
  | none => norm_num [calculate_urgency_score]
  | some d =>
    simp only [calculate_urgency_score]
    by_cases hd : d = 0
    · rw [if_pos hd]; norm_num
    · rw [if_neg hd, ← round2_zero]
      apply round2_mono
      refine le_min (by norm_num) ?_
      have h1 := time_sub_score_nonneg d
      have h2 := severity_sub_score_nonneg h
      have h3 := lead_time_sub_score_ge_10 lead d
      linarith

/-- C4 (amended): for fixed `projected_stock`, `calculated_rop` and
`lead_time_days`, the urgency score is monotonic non-increasing in
`days_until_stockout` over the nonnegative integers (the jump from negative
days to day 0, which Python treats as falsy and scores 100, breaks
monotonicity below 0); the score never exceeds 100; and it is nonnegative
whenever `projected_stock ≤ 0` or `projected_stock ≤ calculated_rop` (an
uncapped negative shortage ratio otherwise drives it below 0). -/
theorem C4_urgency_monotone_bounded (p r : ℚ) (lead : Option ℤ) :
    (∀ d1 d2 : ℤ, 0 ≤ d1 → d1 ≤ d2 →
      calculate_urgency_score (some d2) p r lead ≤
        calculate_urgency_score (some d1) p r lead) ∧
    (∀ days : Option ℤ, calculate_urgency_score days p r lead ≤ 100) ∧
    (∀ days : Option ℤ, (p ≤ 0 ∨ p ≤ r) →
      0 ≤ calculate_urgency_score days p r lead) := by
  refine ⟨?_, fun days => urgency_le_100 days p r lead,
    fun days h => urgency_nonneg days lead h⟩
  intro d1 d2 h0 h12
  by_cases hd1 : d1 = 0
  · subst hd1
    have : calculate_urgency_score (some 0) p r lead = 100 := by
      simp [calculate_urgency_score]
    rw [this]
    exact urgency_le_100 (some d2) p r lead
  · have hd2 : d2 ≠ 0 := by omega
    simp only [calculate_urgency_score]
    rw [if_neg hd1, if_neg hd2]
    apply round2_mono
    refine min_le_min (le_refl 100) ?_
    have ht := time_sub_score_antitone h12
    have hl := lead_time_sub_score_antitone lead h12
    linarith

/-- Witness for C4 (amended): a concrete monotone pair. -/
theorem C4_urgency_monotone_bounded_witness :
    calculate_urgency_score (some 3) 5 10 (some 7) ≤
      calculate_urgency_score (some 1) 5 10 (some 7) :=
  (C4_urgency_monotone_bounded 5 10 (some 7)).1 1 3 (by norm_num) (by norm_num)

/-! ## Suggestion rows and the per-part pipeline -/

/-- An `ROPSuggestion` row (models.py).  `policyId` is the key of the owning
`ROPPolicy` (one per part); suppliers and purchase orders are referenced by
numeric id. -/
structure Suggestion where
  id : Nat
  policyId : Nat
  suggested_order_qty : ℚ
  current_stock : ℚ
  projected_stock : ℚ
  calculated_rop : ℚ
  stockout_date : Option ℤ
  days_until_stockout : Option ℤ
  urgency_score : ℚ
  suggested_supplier : Option Nat
  lead_time_days : Option ℤ
  status : SuggestionStatus
  actioned_date : Option ℤ
  purchase_order : Option Nat
deriving DecidableEq, Repr

/-- The `defaults` dictionary passed to `update_or_create` in
`calculate_part_rop` (rop_engine.py, lines 163-176). -/
structure SuggestionDefaults where
  suggested_order_qty : ℚ
  current_stock : ℚ
  projected_stock : ℚ
  calculated_rop : ℚ
  stockout_date : Option ℤ
  days_until_stockout : Option ℤ
  suggested_supplier : Option Nat
  lead_time_days : Option ℤ
deriving DecidableEq, Repr

/-- `ROPSuggestion.save` (models.py, lines 374-377): every save recomputes
the urgency score from the row's own fields. -/
def applySave (s : Suggestion) : Suggestion :=
  {s with urgency_score := (calculate_urgency_score s.days_until_stockout
    s.projected_stock s.calculated_rop s.lead_time_days)}

/-- Setting the `defaults` fields on an existing row and saving it (the
update arm of `update_or_create`). -/
def applyDefaults (f : SuggestionDefaults) (s : Suggestion) : Suggestion :=
  applySave {s with
    suggested_order_qty := f.suggested_order_qty
    current_stock := f.current_stock
    projected_stock := f.projected_stock
    calculated_rop := f.calculated_rop
    stockout_date := f.stockout_date
    days_until_stockout := f.days_until_stockout
    suggested_supplier := f.suggested_supplier
    lead_time_days := f.lead_time_days}

/-- A fresh `PENDING` suggestion row created with the given defaults (the
create arm of `update_or_create`), saved on creation. -/
def newSuggestion (id policyId : Nat) (f : SuggestionDefaults) : Suggestion :=
  applySave
    { id := id
      policyId := policyId
      suggested_order_qty := f.suggested_order_qty
      current_stock := f.current_stock
      projected_stock := f.projected_stock
      calculated_rop := f.calculated_rop
      stockout_date := f.stockout_date
      days_until_stockout := f.days_until_stockout
      urgency_score := 0
      suggested_supplier := f.suggested_supplier
      lead_time_days := f.lead_time_days
      status := SuggestionStatus.PENDING
      actioned_date := none
      purchase_order := none }

/-- `ROPSuggestion.objects.filter(rop_policy=policy, status='PENDING')
.update(status='EXPIRED')` (rop_engine.py, lines 146-149).  A queryset
`update` writes the column directly without calling `save`, so the urgency
score is not recomputed. -/
def expirePending (policyId : Nat) (l : List Suggestion) : List Suggestion :=
  l.map (fun s =>
    if s.policyId = policyId ∧ s.status = SuggestionStatus.PENDING then
      {s with status := SuggestionStatus.EXPIRED}
    else s)

/-- `ROPSuggestion.objects.update_or_create(rop_policy=policy,
status='PENDING', defaults=...)` (rop_engine.py, lines 163-176): update the
first row matching the lookup (owning policy, status `PENDING`) in place, or
create a new `PENDING` row.  Returns the affected row and the new table
contents. -/
def update_or_create_pending (policyId newId : Nat) (f : SuggestionDefaults) :
    List Suggestion → Suggestion × List Suggestion
  | [] =>
    let s := newSuggestion newId policyId f
    (s, [s])
  | s :: rest =>
    if s.policyId = policyId ∧ s.status = SuggestionStatus.PENDING then
      let s' := applyDefaults f s
      (s', s' :: rest)
    else
      let p := update_or_create_pending policyId newId f rest
      (p.1, s :: p.2)

/-- Global plugin settings read by the engine's constructor
(rop_engine.py, lines 36-38). -/
structure EngineConfig where
  lookback_days : Nat
  min_samples : Nat
deriving DecidableEq, Repr

/-- External inventory-store state for one part, as read by the engine
through its collaborator queries: tracked removal events in the lookback
window, supplier lead time (`get_lead_time`), current stock
(`part.get_stock_count()`), committed quantity (sales-order and build-order
allocations), open purchase-order lines, the preferred supplier
(`get_preferred_supplier`), and today's date as a day number. -/
structure PartEnv where
  partId : Nat
  removals : List ℚ
  leadTime : Option Nat
  currentStock : ℚ
  committedQty : ℚ
  poLines : List POLine
  preferredSupplier : Option Nat
  today : ℤ
deriving Repr

/-- `ROPCalculationEngine.calculate_part_rop` (rop_engine.py, lines 76-178)
for an existing policy, modelling the suggestion-table effects.  The
forecasting plugin is absent, so `get_stockout_prediction` takes the
`estimate_stockout_simple` fallback on the freshly saved demand rate.  The
appended `DemandStatistics` snapshot and the `last_calculation_date`
timestamp are not modelled (no claim mentions them).  Returns the affected
suggestion (if any), the saved policy, and the new suggestion table. -/
def calculate_part_rop (sqrtQ : ℚ → ℚ) (cfg : EngineConfig) (env : PartEnv)
    (policy : ROPPolicy) (suggestions : List Suggestion) (newId : Nat) :
    Option Suggestion × ROPPolicy × List Suggestion :=
  if !policy.enabled then (none, policy, suggestions)
  else
    match calculate_demand_rate sqrtQ env.removals
        (get_effective_lookback_days policy cfg.lookback_days) cfg.min_samples with
    | none => (none, policy, suggestions)
    | some demand_data =>
      let safety_stock := calculate_safety_stock sqrtQ policy demand_data env.leadTime
      let lead_time := env.leadTime.getD 30
      let rop := demand_data.mean_daily_demand * (lead_time : ℚ) + safety_stock
      let policy' := {policy with
        last_calculated_rop := some rop
        last_calculated_demand_rate := some demand_data.mean_daily_demand}
      let projected_stock :=
        calculate_projected_stock env.partId env.currentStock env.committedQty env.poLines
      if projected_stock ≥ rop then
        (none, policy', expirePending policy.partId suggestions)
      else
        let target_stock := rop * policy.target_stock_multiplier
        let soq := max 0 (target_stock - projected_stock)
        let stockout_info := estimate_stockout_simple policy'.last_calculated_demand_rate
          env.currentStock rop env.today
        let f : SuggestionDefaults :=
          { suggested_order_qty := soq
            current_stock := env.currentStock
            projected_stock := projected_stock
            calculated_rop := rop
            stockout_date := stockout_info.date
            days_until_stockout := stockout_info.days
            suggested_supplier := env.preferredSupplier
            lead_time_days := some (lead_time : ℤ) }
        let p := update_or_create_pending policy.partId newId f suggestions
        (some p.1, policy', p.2)

/-- A purchase order created by `generate_purchase_order`. -/
structure PurchaseOrderRec where
  supplier : Nat
  status : POStatus
  fromSuggestion : Nat
deriving DecidableEq, Repr

/-- `ROPCalculationEngine.generate_purchase_order` (rop_engine.py, lines
530-582): look the suggestion up by id; fail (returning `None`, table
untouched) unless it is `PENDING` and has a supplier; otherwise create a
purchase order in status `PENDING` (draft) with a single line item for the
suggested quantity, and move the suggestion to `PO_CREATED` with the action
timestamp stamped (a `save`, so the urgency score is recomputed). -/
def generate_purchase_order (suggestion_id : Nat) (suggestions : List Suggestion)
    (today : ℤ) : Option (PurchaseOrderRec × POLine) × List Suggestion :=
  match suggestions.find? (fun s => s.id = suggestion_id) with
  | none => (none, suggestions)
  | some s =>
    if s.status ≠ SuggestionStatus.PENDING then (none, suggestions)
    else
      match s.suggested_supplier with
      | none => (none, suggestions)
      | some sup =>
        let po : PurchaseOrderRec := ⟨sup, POStatus.PENDING, suggestion_id⟩
        let line : POLine := ⟨s.policyId, s.suggested_order_qty, 0, POStatus.PENDING⟩
        let suggestions' := suggestions.map (fun t =>
          if t.id = suggestion_id then
            applySave {t with
              status := SuggestionStatus.PO_CREATED
              purchase_order := some suggestion_id
              actioned_date := some today}
          else t)
        (some (po, line), suggestions')

/-- Number of `PENDING` suggestions owned by one policy. -/
def pendingCount (policyId : Nat) (l : List Suggestion) : Nat :=
  l.countP (fun s => s.policyId = policyId ∧ s.status = SuggestionStatus.PENDING)

/-- The spec's data invariant: at most one `PENDING` suggestion per policy. -/
def OnePendingInv (l : List Suggestion) : Prop :=
  ∀ policyId, pendingCount policyId l ≤ 1

/-! ### Field projections of saved/updated rows -/

theorem applySave_status (s : Suggestion) : (applySave s).status = s.status := rfl

theorem applySave_policyId (s : Suggestion) : (applySave s).policyId = s.policyId := rfl

theorem applySave_id (s : Suggestion) : (applySave s).id = s.id := rfl

theorem applySave_soq (s : Suggestion) :
    (applySave s).suggested_order_qty = s.suggested_order_qty := rfl

theorem applyDefaults_status (f : SuggestionDefaults) (s : Suggestion) :
    (applyDefaults f s).status = s.status := rfl

theorem applyDefaults_policyId (f : SuggestionDefaults) (s : Suggestion) :
    (applyDefaults f s).policyId = s.policyId := rfl

theorem applyDefaults_soq (f : SuggestionDefaults) (s : Suggestion) :
    (applyDefaults f s).suggested_order_qty = f.suggested_order_qty := rfl

theorem newSuggestion_status (id pid : Nat) (f : SuggestionDefaults) :
    (newSuggestion id pid f).status = SuggestionStatus.PENDING := rfl

theorem newSuggestion_policyId (id pid : Nat) (f : SuggestionDefaults) :
    (newSuggestion id pid f).policyId = pid := rfl

theorem newSuggestion_soq (id pid : Nat) (f : SuggestionDefaults) :
    (newSuggestion id pid f).suggested_order_qty = f.suggested_order_qty := rfl

/-! ### Counting PENDING rows -/

theorem pendingCount_nil (pid : Nat) : pendingCount pid [] = 0 := rfl

theorem pendingCount_cons (pid : Nat) (s : Suggestion) (l : List Suggestion) :
    pendingCount pid (s :: l) = pendingCount pid l +
      (if s.policyId = pid ∧ s.status = SuggestionStatus.PENDING then 1 else 0) := by
  simp only [pendingCount, List.countP_cons]
  by_cases h : s.policyId = pid ∧ s.status = SuggestionStatus.PENDING
  · simp [h]
  · simp [h]

theorem pendingCount_map_le (pid : Nat) (g : Suggestion → Suggestion)
    (hg : ∀ s : Suggestion,
      (g s).policyId = pid ∧ (g s).status = SuggestionStatus.PENDING →
      s.policyId = pid ∧ s.status = SuggestionStatus.PENDING)
    (l : List Suggestion) :
    pendingCount pid (l.map g) ≤ pendingCount pid l := by
  induction l with
  | nil => simp [pendingCount]
  | cons s rest ih =>
    rw [List.map_cons, pendingCount_cons, pendingCount_cons]
    apply Nat.add_le_add ih
    by_cases hgs : (g s).policyId = pid ∧ (g s).status = SuggestionStatus.PENDING
    · simp [hgs, hg s hgs]
    · simp [hgs]

theorem pendingCount_expire_le (pid qid : Nat) (l : List Suggestion) :
    pendingCount qid (expirePending pid l) ≤ pendingCount qid l := by
  apply pendingCount_map_le
  intro s hs
  by_cases h : s.policyId = pid ∧ s.status = SuggestionStatus.PENDING
  · rw [if_pos h] at hs
    exact absurd hs.2 (by simp)
  · rwa [if_neg h] at hs

theorem update_or_create_pending_fst (pid newId : Nat) (f : SuggestionDefaults)
    (l : List Suggestion) :
    (update_or_create_pending pid newId f l).1.suggested_order_qty =
      f.suggested_order_qty ∧
    (update_or_create_pending pid newId f l).1.status = SuggestionStatus.PENDING ∧
    (update_or_create_pending pid newId f l).1.policyId = pid := by
  induction l with
  | nil =>
    exact ⟨newSuggestion_soq newId pid f, newSuggestion_status newId pid f,
      newSuggestion_policyId newId pid f⟩
  | cons s rest ih =>
    by_cases h : s.policyId = pid ∧ s.status = SuggestionStatus.PENDING
    · simp only [update_or_create_pending, if_pos h]
      exact ⟨applyDefaults_soq f s, by rw [applyDefaults_status]; exact h.2,
        by rw [applyDefaults_policyId]; exact h.1⟩
    · simp only [update_or_create_pending, if_neg h]
      exact ih

theorem pendingCount_upsert_self (pid newId : Nat) (f : SuggestionDefaults)
    (l : List Suggestion) :
    pendingCount pid (update_or_create_pending pid newId f l).2 ≤
      max 1 (pendingCount pid l) := by
  induction l with
  | nil =>
    simp only [update_or_create_pending, pendingCount_nil]
    rw [pendingCount_cons, pendingCount_nil]
    simp [newSuggestion_policyId, newSuggestion_status]
  | cons s rest ih =>
    by_cases h : s.policyId = pid ∧ s.status = SuggestionStatus.PENDING
    · simp only [update_or_create_pending, if_pos h]
      rw [pendingCount_cons, pendingCount_cons,
        if_pos (by rw [applyDefaults_policyId, applyDefaults_status]; exact h),
        if_pos h]
      exact le_max_right 1 _
    · simp only [update_or_create_pending, if_neg h]
      rw [pendingCount_cons, pendingCount_cons, if_neg h]
      simpa using ih

theorem pendingCount_upsert_other {qid pid : Nat} (hne : qid ≠ pid)
    (newId : Nat) (f : SuggestionDefaults) (l : List Suggestion) :
    pendingCount qid (update_or_create_pending pid newId f l).2 =
      pendingCount qid l := by
  induction l with
  | nil =>
    simp only [update_or_create_pending, pendingCount_nil]
    rw [pendingCount_cons, pendingCount_nil]
    rw [if_neg (by rw [newSuggestion_policyId]; exact fun hc => hne hc.1.symm)]
  | cons s rest ih =>
    by_cases h : s.policyId = pid ∧ s.status = SuggestionStatus.PENDING
    · simp only [update_or_create_pending, if_pos h]
      rw [pendingCount_cons, pendingCount_cons]
      congr 1
    · simp only [update_or_create_pending, if_neg h]
      rw [pendingCount_cons, pendingCount_cons, ih]

/-- The suggestion-table effect of `calculate_part_rop` is one of: no change,
expiring this policy's PENDING rows, or the PENDING upsert. -/
theorem calculate_part_rop_table_cases (sqrtQ : ℚ → ℚ) (cfg : EngineConfig)
    (env : PartEnv) (policy : ROPPolicy) (l : List Suggestion) (newId : Nat) :
    (calculate_part_rop sqrtQ cfg env policy l newId).2.2 = l ∨
    (calculate_part_rop sqrtQ cfg env policy l newId).2.2 =
      expirePending policy.partId l ∨
    ∃ f : SuggestionDefaults,
      (calculate_part_rop sqrtQ cfg env policy l newId).2.2 =
        (update_or_create_pending policy.partId newId f l).2 := by
  unfold calculate_part_rop
  cases he : policy.enabled with
  | false => left; rfl
  | true =>
    simp only [Bool.not_true, Bool.false_eq_true, if_false]
    cases hd : calculate_demand_rate sqrtQ env.removals
        (get_effective_lookback_days policy cfg.lookback_days) cfg.min_samples with
    | none => left; rfl
    | some dd =>
      simp only
      split
      · right; left; rfl
      · right; right
        exact ⟨_, rfl⟩

/-- The suggestion-table effect of `generate_purchase_order` is either no
change or a pointwise map that never makes a row PENDING. -/
theorem generate_purchase_order_table_cases (sid : Nat) (l : List Suggestion)
    (today : ℤ) :
    (generate_purchase_order sid l today).2 = l ∨
    (generate_purchase_order sid l today).2 = l.map (fun t =>
      if t.id = sid then
        applySave {t with
          status := SuggestionStatus.PO_CREATED
          purchase_order := some sid
          actioned_date := some today}
      else t) := by
  unfold generate_purchase_order
  cases hf : l.find? (fun s => s.id = sid) with
  | none => left; rfl
  | some s =>
    simp only
    split
    · left; rfl
    · cases hs : s.suggested_supplier with
      | none => left; rfl
      | some sup => right; rfl

/-- C1: at most one PENDING suggestion per policy is preserved by a run of
`calculate_part_rop` (the upsert supersedes the old PENDING row in place, or
the PENDING rows are marked EXPIRED when no reorder is needed) and by
`generate_purchase_order` (which moves a PENDING row to PO_CREATED). -/
theorem C1_one_pending_invariant (sqrtQ : ℚ → ℚ) (cfg : EngineConfig)
    (env : PartEnv) (policy : ROPPolicy) (l : List Suggestion)
    (newId sid : Nat) (today : ℤ) (hinv : OnePendingInv l) :
    OnePendingInv (calculate_part_rop sqrtQ cfg env policy l newId).2.2 ∧
    OnePendingInv (generate_purchase_order sid l today).2 := by
  constructor
  · intro qid
    rcases calculate_part_rop_table_cases sqrtQ cfg env policy l newId with
      h | h | ⟨f, h⟩ <;> rw [h]
    · exact hinv qid
    · exact le_trans (pendingCount_expire_le policy.partId qid l) (hinv qid)
    · by_cases hq : qid = policy.partId
      · rw [hq]
        refine le_trans (pendingCount_upsert_self policy.partId newId f l) ?_
        exact max_le (le_refl 1) (hinv policy.partId)
      · rw [pendingCount_upsert_other hq newId f l]
        exact hinv qid
  · intro qid
    rcases generate_purchase_order_table_cases sid l today with h | h <;> rw [h]
    · exact hinv qid
    · refine le_trans (pendingCount_map_le qid _ ?_ l) (hinv qid)
      intro s hs
      by_cases h : s.id = sid
      · rw [if_pos h] at hs
        rw [applySave_status] at hs
        exact absurd hs.2 (by simp)
      · rwa [if_neg h] at hs

/-- Witness for C1: the invariant is preserved on a concrete run starting
from a table holding one PENDING suggestion. -/
theorem C1_one_pending_invariant_witness :
    OnePendingInv ((calculate_part_rop (fun q => q) ⟨90, 5⟩
      ⟨1, [45, 45, 45, 45, 45], some 7, 5, 0, [], some 3, 0⟩
      ⟨1, 10, false, 95, none, 2, none, none, true⟩
      [⟨9, 1, 50, 5, 5, 55/2, none, some 0, 100, some 3, some 7,
        SuggestionStatus.PENDING, none, none⟩] 0).2.2) :=
  (C1_one_pending_invariant (fun q => q) ⟨90, 5⟩
    ⟨1, [45, 45, 45, 45, 45], some 7, 5, 0, [], some 3, 0⟩
    ⟨1, 10, false, 95, none, 2, none, none, true⟩
    [⟨9, 1, 50, 5, 5, 55/2, none, some 0, 100, some 3, some 7,
      SuggestionStatus.PENDING, none, none⟩] 0 9 0
    (fun pid => by
      rw [pendingCount_cons, pendingCount_nil]
      split_ifs <;> norm_num)).1

theorem applySave_actioned_date (s : Suggestion) :
    (applySave s).actioned_date = s.actioned_date := rfl

/-- C8: `generate_purchase_order` creates a purchase order with one line item
for the suggested quantity and moves the suggestion to `PO_CREATED` with its
`actioned_date` stamped if and only if the suggestion exists, is `PENDING`,
and has a supplier; on failure no purchase order is created and the
suggestion table is unchanged. -/
theorem C8_generate_po (sid : Nat) (l : List Suggestion) (today : ℤ) :
    ((generate_purchase_order sid l today).1.isSome ↔
      ∃ s, l.find? (fun t => t.id = sid) = some s ∧
        s.status = SuggestionStatus.PENDING ∧ s.suggested_supplier.isSome) ∧
    ((generate_purchase_order sid l today).1 = none →
      (generate_purchase_order sid l today).2 = l) ∧
    (∀ po line, (generate_purchase_order sid l today).1 = some (po, line) →
      ∃ s, l.find? (fun t => t.id = sid) = some s ∧
        s.status = SuggestionStatus.PENDING ∧
        s.suggested_supplier = some po.supplier ∧
        line.quantity = s.suggested_order_qty ∧
        line.part = s.policyId ∧
        po.status = POStatus.PENDING ∧
        (∀ t ∈ (generate_purchase_order sid l today).2,
          t.id = sid → t.status = SuggestionStatus.PO_CREATED ∧
            t.actioned_date = some today) ∧
        (∀ t ∈ l, t.id ≠ sid → t ∈ (generate_purchase_order sid l today).2)) := by
  cases hf : l.find? (fun t => t.id = sid) with
  | none =>
    have hres : generate_purchase_order sid l today = (none, l) := by
      simp only [generate_purchase_order, hf]
    rw [hres]
    refine ⟨by simp [hf], fun _ => rfl, fun po line h => by simp at h⟩
  | some s =>
    by_cases hst : s.status = SuggestionStatus.PENDING
    · cases hsup : s.suggested_supplier with
      | none =>
        have hres : generate_purchase_order sid l today = (none, l) := by
          simp only [generate_purchase_order, hf, hsup]
          rw [if_neg (by simp [hst])]
        rw [hres]
        refine ⟨?_, fun _ => rfl, fun po line h => by simp at h⟩
        simp only [Option.isSome_none, Bool.false_eq_true, false_iff]
        rintro ⟨s', hs', _, hsup'⟩
        cases hs'
        rw [hsup] at hsup'
        simp at hsup'
      | some sup =>
        have hres : generate_purchase_order sid l today =
            (some (⟨sup, POStatus.PENDING, sid⟩,
              ⟨s.policyId, s.suggested_order_qty, 0, POStatus.PENDING⟩),
             l.map (fun t =>
               if t.id = sid then
                 applySave {t with
                   status := SuggestionStatus.PO_CREATED
                   purchase_order := some sid
                   actioned_date := some today}
               else t)) := by
          simp only [generate_purchase_order, hf, hsup]
          rw [if_neg (by simp [hst])]
        rw [hres]
        refine ⟨⟨fun _ => ⟨s, rfl, hst, by rw [hsup]; rfl⟩, fun _ => rfl⟩,
          fun hnone => by simp at hnone, ?_⟩
        intro po line h
        simp only [Option.some.injEq, Prod.mk.injEq] at h
        obtain ⟨hpo, hline⟩ := h
        subst hpo
        subst hline
        refine ⟨s, rfl, hst, by rw [hsup], rfl, rfl, rfl, ?_, ?_⟩
        · intro t ht htid
          obtain ⟨u, hu, hut⟩ := List.mem_map.mp ht
          by_cases hid : u.id = sid
          · rw [if_pos hid] at hut
            rw [← hut]
            exact ⟨applySave_status _, applySave_actioned_date _⟩
          · rw [if_neg hid] at hut
            rw [← hut] at htid
            exact absurd htid hid
        · intro t ht htid
          have heq : (if t.id = sid then
              applySave {t with
                status := SuggestionStatus.PO_CREATED
                purchase_order := some sid
                actioned_date := some today}
            else t) = t := if_neg htid
          rw [← heq]
          exact List.mem_map_of_mem _ ht
    · have hres : generate_purchase_order sid l today = (none, l) := by
        simp only [generate_purchase_order, hf]
        rw [if_pos hst]
      rw [hres]
      refine ⟨?_, fun _ => rfl, fun po line h => by simp at h⟩
      simp only [Option.isSome_none, Bool.false_eq_true, false_iff]
      rintro ⟨s', hs', hst', _⟩
      cases hs'
      exact hst hst'

/-- Witness for C8: on a table whose only row is PENDING with a supplier, PO
generation succeeds. -/
theorem C8_generate_po_witness :
    ((generate_purchase_order 9 [⟨9, 1, 50, 5, 5, 55/2, none, some 0, 100,
      some 3, some 7, SuggestionStatus.PENDING, none, none⟩] 0).1).isSome :=
  (C8_generate_po 9 [⟨9, 1, 50, 5, 5, 55/2, none, some 0, 100, some 3, some 7,
    SuggestionStatus.PENDING, none, none⟩] 0).1.mpr
    ⟨⟨9, 1, 50, 5, 5, 55/2, none, some 0, 100, some 3, some 7,
      SuggestionStatus.PENDING, none, none⟩, by simp, rfl, rfl⟩

/-- C10: a purchase order created by `generate_purchase_order` is in the
draft `PENDING` status, which the inbound-quantity calculation excludes, so
the projected stock of every part is unchanged by the newly created order
until it is issued. -/
theorem C10_draft_po_frame (sid : Nat) (l : List Suggestion) (today : ℤ)
    (partId : Nat) (current committed : ℚ) (lines : List POLine) :
    ∀ po line, (generate_purchase_order sid l today).1 = some (po, line) →
      po.status = POStatus.PENDING ∧
      calculate_projected_stock partId current committed (line :: lines) =
        calculate_projected_stock partId current committed lines := by
  intro po line h
  have hdraft : po.status = POStatus.PENDING ∧
      line.orderStatus = POStatus.PENDING := by
    cases hf : l.find? (fun t => t.id = sid) with
    | none => simp [generate_purchase_order, hf] at h
    | some s =>
      by_cases hst : s.status = SuggestionStatus.PENDING
      · cases hsup : s.suggested_supplier with
        | none =>
          rw [show generate_purchase_order sid l today = (none, l) from by
            simp only [generate_purchase_order, hf, hsup]
            rw [if_neg (by simp [hst])]] at h
          simp at h
        | some sup =>
          rw [show generate_purchase_order sid l today =
              (some (⟨sup, POStatus.PENDING, sid⟩,
                ⟨s.policyId, s.suggested_order_qty, 0, POStatus.PENDING⟩),
               l.map (fun t =>
                 if t.id = sid then
                   applySave {t with
                     status := SuggestionStatus.PO_CREATED
                     purchase_order := some sid
                     actioned_date := some today}
                 else t)) from by
            simp only [generate_purchase_order, hf, hsup]
            rw [if_neg (by simp [hst])]] at h
          simp only [Option.some.injEq, Prod.mk.injEq] at h
          obtain ⟨hpo, hline⟩ := h
          subst hpo
          subst hline
          exact ⟨rfl, rfl⟩
      · rw [show generate_purchase_order sid l today = (none, l) from by
          simp only [generate_purchase_order, hf]
          rw [if_pos hst]] at h
        simp at h
  refine ⟨hdraft.1, ?_⟩
  unfold calculate_projected_stock
  rw [inbound_cons_of_draft partId line lines hdraft.2]

/-- Witness for C10: the concrete PO generated from a PENDING suggestion
leaves a concrete part's projected stock unchanged. -/
theorem C10_draft_po_frame_witness :
    (⟨3, POStatus.PENDING, 9⟩ : PurchaseOrderRec).status = POStatus.PENDING ∧
    calculate_projected_stock 1 5 0
        ((⟨1, 50, 0, POStatus.PENDING⟩ : POLine) :: []) =
      calculate_projected_stock 1 5 0 [] :=
  C10_draft_po_frame 9 [⟨9, 1, 50, 5, 5, 55/2, none, some 0, 100, some 3,
    some 7, SuggestionStatus.PENDING, none, none⟩] 0 1 5 0 []
    ⟨3, POStatus.PENDING, 9⟩ ⟨1, 50, 0, POStatus.PENDING⟩ rfl

/-! ## Claims C2 and C9 -/

/-- C2: the spec's worked scenario.  Lookback 90 days, five removal events
totalling 225 units (min_samples 5), manual safety stock 10, lead time 7,
target multiplier 2.0, current stock 5, nothing inbound or committed:
`mean_daily_demand = 5/2`, `rop = 5/2·7 + 10 = 55/2`, projected stock 5,
suggested order quantity `max 0 (55/2·2 − 5) = 50`, and a PENDING suggestion
is created.  The result is independent of the square-root primitive because
the manual safety stock is used. -/
theorem C2_worked_scenario (sqrtQ : ℚ → ℚ) :
    calculate_part_rop sqrtQ ⟨90, 5⟩
      ⟨1, [45, 45, 45, 45, 45], some 7, 5, 0, [], some 3, 0⟩
      ⟨1, 10, false, 95, none, 2, none, none, true⟩ [] 0 =
    (some ⟨0, 1, 50, 5, 5, 55/2, some 0, some 0, 100, some 3, some 7,
        SuggestionStatus.PENDING, none, none⟩,
     ⟨1, 10, false, 95, none, 2, some (55/2), some (5/2), true⟩,
     [⟨0, 1, 50, 5, 5, 55/2, some 0, some 0, 100, some 3, some 7,
        SuggestionStatus.PENDING, none, none⟩]) := by
  norm_num [calculate_part_rop, calculate_demand_rate, get_effective_lookback_days,
    calculate_safety_stock, calculate_projected_stock, get_inbound_po_quantity,
    estimate_stockout_simple, intTrunc, update_or_create_pending, newSuggestion,
    applySave, calculate_urgency_score, Int.ceil_neg, Int.floor_ofNat]

theorem calculate_demand_rate_mean_nonneg {sqrtQ : ℚ → ℚ} {removals : List ℚ}
    {lookback_days min_samples : Nat} {dd : DemandData}
    (h : calculate_demand_rate sqrtQ removals lookback_days min_samples = some dd) :
    0 ≤ dd.mean_daily_demand := by
  simp only [calculate_demand_rate] at h
  split at h
  · exact absurd h (by simp)
  · injection h with h'
    subst h'
    apply div_nonneg _ (Nat.cast_nonneg _)
    apply List.sum_nonneg
    intro x hx
    obtain ⟨q, _, rfl⟩ := List.mem_map.mp hx
    exact abs_nonneg q

theorem calculate_safety_stock_nonneg (sqrtQ : ℚ → ℚ) (policy : ROPPolicy)
    (dd : DemandData) (lt : Option Nat) (hss : 0 ≤ policy.safety_stock) :
    0 ≤ calculate_safety_stock sqrtQ policy dd lt := by
  unfold calculate_safety_stock
  split
  · exact hss
  · exact le_max_left 0 _

/-- When `calculate_part_rop` returns a suggestion, the demand calculation
succeeded, projected stock was strictly below the ROP, and the returned
row's quantity is `max 0 (rop·multiplier − projected)`. -/
theorem calculate_part_rop_some {sqrtQ : ℚ → ℚ} {cfg : EngineConfig}
    {env : PartEnv} {policy : ROPPolicy} {l : List Suggestion} {newId : Nat}
    {s : Suggestion}
    (h : (calculate_part_rop sqrtQ cfg env policy l newId).1 = some s) :
    ∃ dd, calculate_demand_rate sqrtQ env.removals
        (get_effective_lookback_days policy cfg.lookback_days)
        cfg.min_samples = some dd ∧
      calculate_projected_stock env.partId env.currentStock env.committedQty
          env.poLines <
        dd.mean_daily_demand * ((env.leadTime.getD 30 : Nat) : ℚ) +
          calculate_safety_stock sqrtQ policy dd env.leadTime ∧
      s.suggested_order_qty = max 0
        ((dd.mean_daily_demand * ((env.leadTime.getD 30 : Nat) : ℚ) +
            calculate_safety_stock sqrtQ policy dd env.leadTime) *
          policy.target_stock_multiplier -
          calculate_projected_stock env.partId env.currentStock env.committedQty
            env.poLines) := by
  simp only [calculate_part_rop] at h
  cases he : policy.enabled with
  | false => rw [he] at h; simp at h
  | true =>
    rw [he] at h
    simp only [Bool.not_true, Bool.false_eq_true, if_false] at h
    cases hd : calculate_demand_rate sqrtQ env.removals
        (get_effective_lookback_days policy cfg.lookback_days) cfg.min_samples with
    | none => rw [hd] at h; simp at h
    | some dd =>
      rw [hd] at h
      dsimp only at h
      refine ⟨dd, rfl, ?_⟩
      by_cases hproj : calculate_projected_stock env.partId env.currentStock
          env.committedQty env.poLines ≥
          dd.mean_daily_demand * ((env.leadTime.getD 30 : Nat) : ℚ) +
            calculate_safety_stock sqrtQ policy dd env.leadTime
      · rw [if_pos hproj] at h
        simp at h
      · rw [if_neg hproj] at h
        injection h with h'
        subst h'
        exact ⟨lt_of_not_ge hproj, (update_or_create_pending_fst _ _ _ _).1⟩

/-- C9: every suggestion created or updated by `calculate_part_rop` has a
strictly positive suggested order quantity, given the model validators
(`target_stock_multiplier ≥ 1`, manual `safety_stock ≥ 0`): the row is only
written when `projected_stock < rop`, and `rop ≥ 0`, so
`max 0 (rop·multiplier − projected) > 0`. -/
theorem C9_positive_soq (sqrtQ : ℚ → ℚ) (cfg : EngineConfig) (env : PartEnv)
    (policy : ROPPolicy) (l : List Suggestion) (newId : Nat)
    (hmult : 1 ≤ policy.target_stock_multiplier)
    (hss : 0 ≤ policy.safety_stock) :
    ∀ s, (calculate_part_rop sqrtQ cfg env policy l newId).1 = some s →
      0 < s.suggested_order_qty := by
  intro s h
  obtain ⟨dd, hd, hlt, hsoq⟩ := calculate_part_rop_some h
  rw [hsoq]
  set rop := dd.mean_daily_demand * ((env.leadTime.getD 30 : Nat) : ℚ) +
    calculate_safety_stock sqrtQ policy dd env.leadTime with hrop
  set projected := calculate_projected_stock env.partId env.currentStock
    env.committedQty env.poLines with hprojdef
  have hrop_nonneg : 0 ≤ rop := by
    rw [hrop]
    have h1 := calculate_demand_rate_mean_nonneg hd
    have h2 := calculate_safety_stock_nonneg sqrtQ policy dd env.leadTime hss
    have h3 : (0 : ℚ) ≤ ((env.leadTime.getD 30 : Nat) : ℚ) := Nat.cast_nonneg _
    have := mul_nonneg h1 h3
    linarith
  have htarget : rop ≤ rop * policy.target_stock_multiplier :=
    le_mul_of_one_le_right hrop_nonneg hmult
  have : 0 < rop * policy.target_stock_multiplier - projected := by linarith
  exact lt_max_of_lt_right this

/-- Witness for C9: on the spec's worked scenario the returned suggestion
has a positive quantity, and a suggestion is indeed returned. -/
theorem C9_positive_soq_witness :
    (∀ s, (calculate_part_rop (fun q => q) ⟨90, 5⟩
        ⟨1, [45, 45, 45, 45, 45], some 7, 5, 0, [], some 3, 0⟩
        ⟨1, 10, false, 95, none, 2, none, none, true⟩ [] 0).1 = some s →
      0 < s.suggested_order_qty) ∧
    ((calculate_part_rop (fun q => q) ⟨90, 5⟩
        ⟨1, [45, 45, 45, 45, 45], some 7, 5, 0, [], some 3, 0⟩
        ⟨1, 10, false, 95, none, 2, none, none, true⟩ [] 0).1).isSome :=
  ⟨C9_positive_soq (fun q => q) ⟨90, 5⟩
      ⟨1, [45, 45, 45, 45, 45], some 7, 5, 0, [], some 3, 0⟩
      ⟨1, 10, false, 95, none, 2, none, none, true⟩ [] 0
      (by norm_num) (by norm_num),
   by norm_num [calculate_part_rop, calculate_demand_rate,
     get_effective_lookback_days, calculate_safety_stock,
     calculate_projected_stock, get_inbound_po_quantity,
     estimate_stockout_simple, intTrunc, update_or_create_pending,
     newSuggestion, applySave, calculate_urgency_score, Int.ceil_neg,
     Int.floor_ofNat]⟩

end ROPEngine
